import Mathlib

/-!
Verification of the Combiner `ExecutableItem` of `spine_items`
(`src/spine_items/combiner/executable_item.py`), via a shallow embedding.

The Python object state is embedded as `CombinerState`; each method becomes a
pure function from state to state, additionally returning the ordered list of
externally visible events (`Ev`) it performs (logger emissions, worker
construction, thread start/join, event-loop transitions) and, where the method
returns a value, that value.

The blocking call `self._loop.exec_()` is resolved by a `RunOutcome`
parameter: either the worker's `finished` signal fires (normal completion) or
`stop_execution` is invoked during the wait.  On normal completion the two
slots connected to `finished` — `_handle_worker_finished` and `_loop.quit`,
connected in that source order — are delivered in connection order, which is
how Qt delivers a signal to several slots of the same receiver thread.
-/

namespace Combiner

/-- A pipeline resource as used by the Combiner: the code reads only the
`url` and `type_` attributes (`_urls_from_resources`). -/
structure Resource where
  url : String
  type_ : String
deriving DecidableEq, Repr

/-- The arguments with which `_execute_forward` constructs a `CombinerWorker`
(`CombinerWorker(from_urls, to_urls, self._logs_dir, self._cancel_on_error,
self._logger)`); the logger collaborator carries no data and is omitted. -/
structure Worker where
  from_urls : List String
  to_urls : List String
  logs_dir : String
  cancel_on_error : Bool
deriving DecidableEq, Repr

/-- The mutable state of a Combiner `ExecutableItem` instance: the fields set
in `__init__`.  `worker_thread` records whether a `QThread` is held
(`self._worker_thread is not None`); `loop` records whether a `QEventLoop` is
held, and if so whether it is currently running (`isRunning()`). -/
structure CombinerState where
  name : String
  logs_dir : String
  cancel_on_error : Bool
  resources_from_downstream : List Resource
  worker : Option Worker
  worker_thread : Bool
  loop : Option Bool
  merge_succeeded : Bool
deriving DecidableEq, Repr

/-- Externally visible events performed by the methods, in order. -/
inductive Ev where
  | logWarning (msg : String)
  | logError (msg : String)
  | logSuccess (msg : String)
  | constructWorker (w : Worker)
  | startThread
  | ranHandleWorkerFinished
  | ranLoopQuit
  | exitLoop
  | loopUnblocked (code : Int)
  | joinThread
deriving DecidableEq, Repr

/-- The two slots `_execute_forward` connects to the worker's `finished`
signal. -/
inductive Slot where
  | handleWorkerFinished
  | loopQuit
deriving DecidableEq, Repr

/-- Connection order of the `finished` signal, as in the source:
`self._worker.finished.connect(self._handle_worker_finished)` on the line
before `self._worker.finished.connect(self._loop.quit)`. -/
def finishedConnections : List Slot :=
  [Slot.handleWorkerFinished, Slot.loopQuit]

/-- How the blocking `self._loop.exec_()` call is unblocked: either the
worker's `finished` signal fires (the worker's internal merge outcome
`mergeOk` models the opaque success or failure of the excluded
`CombinerWorker`'s merge; the `finished` signal itself carries no payload and
the visible code never reads `mergeOk`), or `stop_execution` is called during
the wait. -/
inductive RunOutcome where
  | finishedNormally (mergeOk : Bool)
  | stoppedDuringWait
deriving DecidableEq, Repr

/-- `ExecutableItem.__init__`: the state of a freshly constructed item. -/
def initState (name logs_dir : String) (cancel_on_error : Bool) : CombinerState :=
  { name := name
    logs_dir := logs_dir
    cancel_on_error := cancel_on_error
    resources_from_downstream := []
    worker := none
    worker_thread := false
    loop := none
    merge_succeeded := false }

/-- `ExecutableItem._urls_from_resources`:
`[r.url for r in resources if r.type_ == "database"]`. -/
def urlsFromResources (resources : List Resource) : List String :=
  (resources.filter fun r => r.type_ == "database").map Resource.url

/-- Python `list.copy()`: a shallow copy — a fresh list object with the same
elements.  Object identity is outside this embedding; element-wise the copy
equals the original. -/
def pyCopy (xs : List Resource) : List Resource :=
  xs

/-- `ExecutableItem._execute_backward`: stores a copy of the downstream
resources and returns `True`.  It performs no events. -/
def executeBackward (s : CombinerState) (resources : List Resource) :
    CombinerState × List Ev × Bool :=
  ({ s with resources_from_downstream := pyCopy resources }, [], true)

/-- `ExecutableItem._destroy_current_worker`: releases the loop (via
`deleteLater`) and the worker (via `deleteLater`), and quits and joins the
thread (`quit()` then `wait()`), whichever of them are present. -/
def destroyCurrentWorker (s : CombinerState) : CombinerState × List Ev :=
  let s := if s.loop.isSome then { s with loop := none } else s
  let s := if s.worker.isSome then { s with worker := none } else s
  if s.worker_thread then
    ({ s with worker_thread := false }, [Ev.joinThread])
  else
    (s, [])

/-- `ExecutableItem._handle_worker_finished`: destroys the current
worker/loop/thread and sets `_merge_succeeded = True`.  The slot takes no
argument: it receives nothing from the `finished` signal. -/
def handleWorkerFinished (s : CombinerState) : CombinerState × List Ev :=
  let d := destroyCurrentWorker s
  ({ d.1 with merge_succeeded := true }, d.2)

/-- `ExecutableItem.stop_execution`: exits a running loop with code `-1` and
drops the loop reference, drops the worker reference (via `deleteLater`), and
quits and joins the thread.  `ExecutableItemBase.stop_execution` is not under
`src/`; modelled from the spec: the Stop contract in the spec attributes no
Combiner-state effect to the base class, so `super().stop_execution()` is a
no-op here. -/
def stopExecution (s : CombinerState) : CombinerState × List Ev :=
  let ev1 : List Ev :=
    match s.loop with
    | some running => if running then [Ev.exitLoop] else []
    | none => []
  let s := if s.loop.isSome then { s with loop := none } else s
  let s := if s.worker.isSome then { s with worker := none } else s
  if s.worker_thread then
    ({ s with worker_thread := false }, ev1 ++ [Ev.joinThread])
  else
    (s, ev1)

/-- Delivery of one slot connected to the worker's `finished` signal. -/
def runSlot (s : CombinerState) : Slot → CombinerState × List Ev
  | Slot.handleWorkerFinished =>
    let h := handleWorkerFinished s
    (h.1, Ev.ranHandleWorkerFinished :: h.2)
  | Slot.loopQuit =>
    (s, [Ev.ranLoopQuit])

/-- Delivery of the `finished` signal to its connected slots, in connection
order. -/
def deliverSlots (s : CombinerState) : List Slot → CombinerState × List Ev
  | [] => (s, [])
  | slot :: rest =>
    let r1 := runSlot s slot
    let r2 := deliverSlots r1.1 rest
    (r2.1, r1.2 ++ r2.2)

/-- `ExecutableItem._execute_forward`.  Filters both resource lists to
database URLs; on a missing side, warns and returns `True`.  Otherwise tears
down any previous worker, builds loop/worker/thread, connects `finished` to
the slots of `finishedConnections` in that order, starts the thread and blocks
on `loop.exec_()`.  The `outcome` parameter resolves the block: on normal
completion the connected slots run in connection order and the loop returns
`0`; on a stop during the wait, `stop_execution` runs and the loop returns
`-1`. -/
def executeForward (s : CombinerState) (resources : List Resource)
    (outcome : RunOutcome) : CombinerState × List Ev × Bool :=
  let from_urls := urlsFromResources resources
  let to_urls := urlsFromResources s.resources_from_downstream
  if from_urls.isEmpty then
    (s, [Ev.logWarning "No input database(s) available. Moving on..."], true)
  else if to_urls.isEmpty then
    (s, [Ev.logWarning "No output database available. Moving on..."], true)
  else
    let d := destroyCurrentWorker s
    let w : Worker :=
      { from_urls := from_urls
        to_urls := to_urls
        logs_dir := d.1.logs_dir
        cancel_on_error := d.1.cancel_on_error }
    let s2 := { d.1 with loop := some true, worker := some w, worker_thread := true }
    let ev2 := d.2 ++ [Ev.constructWorker w, Ev.startThread]
    match outcome with
    | RunOutcome.finishedNormally _mergeOk =>
      let r := deliverSlots s2 finishedConnections
      (r.1,
        ev2 ++ r.2 ++
          [Ev.loopUnblocked 0,
            Ev.logSuccess ("Executing Combiner " ++ s.name ++ " finished")],
        r.1.merge_succeeded)
    | RunOutcome.stoppedDuringWait =>
      let r := stopExecution s2
      (r.1,
        ev2 ++ r.2 ++
          [Ev.loopUnblocked (-1),
            Ev.logError ("Combiner " ++ s.name ++ " stopped")],
        false)

/-- Whether an event is a worker construction. -/
def Ev.isConstructWorker : Ev → Bool
  | Ev.constructWorker _ => true
  | _ => false

/-- Whether an event is a thread start. -/
def Ev.isStartThread : Ev → Bool
  | Ev.startThread => true
  | _ => false

/-- Whether an event is a logger warning. -/
def Ev.isLogWarning : Ev → Bool
  | Ev.logWarning _ => true
  | _ => false

/-- `os.path.join` on POSIX, for the two-argument case used in `from_dict`
(also the semantics of appending one component in
`pathlib.Path(a, b, ...)`): an absolute second component replaces the first,
otherwise a separator is inserted unless the first part is empty or already
ends in one.  (`pathlib` additionally collapses duplicate separators; on the
nonempty, separator-free components used below the two agree.) -/
def osPathJoin (a b : String) : String :=
  if b.data.head? = some '/' then b
  else if a.data = [] ∨ a.data.getLast? = some '/' then a ++ b
  else a ++ "/" ++ b

/-- `ExecutableItem.from_dict`: builds
`pathlib.Path(project_dir, ".spinetoolbox", "items", shorten(name))`, joins
`"logs"`, reads `item_dict["cancel_on_error"]` (a `KeyError` when absent —
embedded as `Except.error`) and constructs the item.  `helpers.shorten` is not
under `src/` and is passed in as a parameter.  The item dictionary is embedded
as an association list from keys to the one value type the code reads
(a boolean). -/
def fromDict (shorten : String → String) (item_dict : List (String × Bool))
    (name project_dir : String) : Except String CombinerState :=
  let data_dir :=
    osPathJoin (osPathJoin (osPathJoin project_dir ".spinetoolbox") "items")
      (shorten name)
  let logs_dir := osPathJoin data_dir "logs"
  match item_dict.lookup "cancel_on_error" with
  | some cancel_on_error => Except.ok (initState name logs_dir cancel_on_error)
  | none => Except.error "KeyError: cancel_on_error"

/-! ## Helper lemmas -/

/-- A sample worker configuration used for concrete instances. -/
def sampleWorker : Worker :=
  { from_urls := ["sqlite:///a.sqlite"]
    to_urls := ["sqlite:///b.sqlite"]
    logs_dir := "logs"
    cancel_on_error := false }

/-- A sample state in the middle of an execution: worker, thread and a
non-running loop all present. -/
def busyState : CombinerState :=
  { name := "T"
    logs_dir := "logs"
    cancel_on_error := false
    resources_from_downstream := [{ url := "sqlite:///b.sqlite", type_ := "database" }]
    worker := some sampleWorker
    worker_thread := true
    loop := some false
    merge_succeeded := false }

theorem destroyCurrentWorker_clears (s : CombinerState) :
    (destroyCurrentWorker s).1.loop = none ∧ (destroyCurrentWorker s).1.worker = none ∧
      (destroyCurrentWorker s).1.worker_thread = false := by
  rcases s with ⟨n, ld, c, rd, w, wt, lp, m⟩
  cases w <;> cases wt <;> cases lp <;> simp [destroyCurrentWorker]

theorem destroyCurrentWorker_frame (s : CombinerState) :
    (destroyCurrentWorker s).1.merge_succeeded = s.merge_succeeded ∧
      (destroyCurrentWorker s).1.logs_dir = s.logs_dir ∧
      (destroyCurrentWorker s).1.cancel_on_error = s.cancel_on_error ∧
      (destroyCurrentWorker s).1.name = s.name ∧
      (destroyCurrentWorker s).1.resources_from_downstream = s.resources_from_downstream := by
  rcases s with ⟨n, ld, c, rd, w, wt, lp, m⟩
  cases w <;> cases wt <;> cases lp <;> simp [destroyCurrentWorker]

theorem stopExecution_clears (s : CombinerState) :
    (stopExecution s).1.loop = none ∧ (stopExecution s).1.worker = none ∧
      (stopExecution s).1.worker_thread = false ∧
      (stopExecution s).1.merge_succeeded = s.merge_succeeded := by
  rcases s with ⟨n, ld, c, rd, w, wt, lp, m⟩
  cases w <;> cases wt <;> cases lp <;> simp [stopExecution]

/-! ## Theorems -/

/-- C7: `_execute_backward` returns `True`; its only state effect is storing a
copy of the downstream resource list (element-wise equal to the input); every
other field is unchanged and no logging or validation occurs (empty event
list). -/
theorem executeBackward_stores_copy_only (s : CombinerState) (resources : List Resource) :
    executeBackward s resources =
      ({ s with resources_from_downstream := pyCopy resources }, [], true) ∧
    pyCopy resources = resources :=
  ⟨rfl, rfl⟩

/-- C2: when either filtered database-URL list is empty, `_execute_forward`
leaves the state unchanged, emits exactly one warning (the input-side one when
the upstream list is empty, otherwise the output-side one), constructs no
worker, and returns `True`. -/
theorem executeForward_missing_side_noop (s : CombinerState) (resources : List Resource)
    (o : RunOutcome)
    (h : urlsFromResources resources = [] ∨
      urlsFromResources s.resources_from_downstream = []) :
    executeForward s resources o =
      (s,
        [Ev.logWarning
          (if (urlsFromResources resources).isEmpty then
            "No input database(s) available. Moving on..."
          else "No output database available. Moving on...")],
        true) := by
  by_cases hf : urlsFromResources resources = []
  · simp [executeForward, hf]
  · rcases h with h | h
    · exact absurd h hf
    · simp [executeForward, hf, h]

/-- C2 witness at a concrete input. -/
theorem executeForward_missing_side_noop_witness :
    executeForward (initState "T" "logs" false) [] RunOutcome.stoppedDuringWait =
      (initState "T" "logs" false,
        [Ev.logWarning "No input database(s) available. Moving on..."], true) := by
  simpa using
    executeForward_missing_side_noop (initState "T" "logs" false) []
      RunOutcome.stoppedDuringWait (Or.inl rfl)

/-- C3: when both filtered database-URL lists are non-empty and
`stop_execution` forcibly unblocks the wait (nonzero exit code),
`_execute_forward` logs an error and returns `False`, for every state — in
particular regardless of the worker fields and of `_merge_succeeded`. -/
theorem executeForward_stop_during_wait_fails (s : CombinerState) (resources : List Resource)
    (h1 : urlsFromResources resources ≠ [])
    (h2 : urlsFromResources s.resources_from_downstream ≠ []) :
    (executeForward s resources RunOutcome.stoppedDuringWait).2.2 = false ∧
    Ev.logError ("Combiner " ++ s.name ++ " stopped")
      ∈ (executeForward s resources RunOutcome.stoppedDuringWait).2.1 := by
  constructor
  · simp [executeForward, h1, h2]
  · simp [executeForward, h1, h2, stopExecution]

/-- C3 witness at a concrete input. -/
theorem executeForward_stop_during_wait_fails_witness :
    (executeForward
        { initState "T" "logs" false with
          resources_from_downstream := [{ url := "sqlite:///b.sqlite", type_ := "database" }],
          merge_succeeded := true }
        [{ url := "sqlite:///a.sqlite", type_ := "database" }]
        RunOutcome.stoppedDuringWait).2.2 = false ∧
    Ev.logError "Combiner T stopped" ∈
      (executeForward
        { initState "T" "logs" false with
          resources_from_downstream := [{ url := "sqlite:///b.sqlite", type_ := "database" }],
          merge_succeeded := true }
        [{ url := "sqlite:///a.sqlite", type_ := "database" }]
        RunOutcome.stoppedDuringWait).2.1 := by
  simpa using
    executeForward_stop_during_wait_fails
      { initState "T" "logs" false with
        resources_from_downstream := [{ url := "sqlite:///b.sqlite", type_ := "database" }],
        merge_succeeded := true }
      [{ url := "sqlite:///a.sqlite", type_ := "database" }]
      (by decide) (by decide)

/-- C5: `stop_execution` is idempotent on the item state (a second call
changes nothing); on a state with no loop, no worker and no thread it is a
complete no-op (same state, no events; being a total function, it raises
nothing); and when a thread is held it joins it before returning. -/
theorem stopExecution_idempotent_noop_joins (s t u : CombinerState)
    (hidle : t.loop = none ∧ t.worker = none ∧ t.worker_thread = false)
    (hthread : u.worker_thread = true) :
    (stopExecution (stopExecution s).1).1 = (stopExecution s).1 ∧
    stopExecution t = (t, []) ∧
    Ev.joinThread ∈ (stopExecution u).2 := by
  refine ⟨?_, ?_, ?_⟩
  · rcases s with ⟨n, ld, c, rd, w, wt, lp, m⟩
    cases w <;> cases wt <;> cases lp <;> simp [stopExecution]
  · obtain ⟨h1, h2, h3⟩ := hidle
    rcases t with ⟨n, ld, c, rd, w, wt, lp, m⟩
    simp only at h1 h2 h3
    subst h1 h2 h3
    simp [stopExecution]
  · rcases u with ⟨n, ld, c, rd, w, wt, lp, m⟩
    simp only at hthread
    subst hthread
    cases w <;> cases lp <;> simp [stopExecution]

/-- C5 witness at concrete inputs. -/
theorem stopExecution_idempotent_noop_joins_witness :
    (stopExecution (stopExecution busyState).1).1 = (stopExecution busyState).1 ∧
    stopExecution (initState "T" "logs" false) = (initState "T" "logs" false, []) ∧
    Ev.joinThread ∈ (stopExecution busyState).2 := by
  exact stopExecution_idempotent_noop_joins busyState (initState "T" "logs" false) busyState
    ⟨rfl, rfl, rfl⟩ rfl

/-- C1 counterexample: a forward execution whose merge operation fails
internally (`mergeOk = false`) still returns `True` on the normal-completion
path — the completion handler takes no payload from the `finished` signal and
sets `_merge_succeeded = True` unconditionally, so the internal failure is not
surfaced as `False`. -/
theorem executeForward_merge_failure_not_surfaced :
    (executeForward
        { initState "T" "logs" false with
          resources_from_downstream := [{ url := "sqlite:///b.sqlite", type_ := "database" }] }
        [{ url := "sqlite:///a.sqlite", type_ := "database" }]
        (RunOutcome.finishedNormally false)).2.2 ≠ false := by
  decide

/-- C1 amended: on the normal-completion path `_execute_forward` returns the
success flag set by the completion handler; since `_handle_worker_finished`
sets the flag unconditionally, the returned flag is `True` for every internal
merge outcome `mergeOk` — an internal merge failure is not surfaced as
`False`. -/
theorem executeForward_normal_returns_handler_flag (s : CombinerState)
    (resources : List Resource) (mergeOk : Bool)
    (h1 : urlsFromResources resources ≠ [])
    (h2 : urlsFromResources s.resources_from_downstream ≠ []) :
    (executeForward s resources (RunOutcome.finishedNormally mergeOk)).2.2 =
      (executeForward s resources (RunOutcome.finishedNormally mergeOk)).1.merge_succeeded ∧
    (executeForward s resources (RunOutcome.finishedNormally mergeOk)).2.2 = true := by
  constructor
  · simp [executeForward, h1, h2]
  · simp [executeForward, h1, h2, deliverSlots, finishedConnections, runSlot,
      handleWorkerFinished, destroyCurrentWorker]

/-- C1 amended witness at a concrete input. -/
theorem executeForward_normal_returns_handler_flag_witness :
    (executeForward
        { initState "T" "logs" false with
          resources_from_downstream := [{ url := "sqlite:///b.sqlite", type_ := "database" }] }
        [{ url := "sqlite:///a.sqlite", type_ := "database" }]
        (RunOutcome.finishedNormally true)).2.2 =
      (executeForward
        { initState "T" "logs" false with
          resources_from_downstream := [{ url := "sqlite:///b.sqlite", type_ := "database" }] }
        [{ url := "sqlite:///a.sqlite", type_ := "database" }]
        (RunOutcome.finishedNormally true)).1.merge_succeeded ∧
    (executeForward
        { initState "T" "logs" false with
          resources_from_downstream := [{ url := "sqlite:///b.sqlite", type_ := "database" }] }
        [{ url := "sqlite:///a.sqlite", type_ := "database" }]
        (RunOutcome.finishedNormally true)).2.2 = true := by
  exact executeForward_normal_returns_handler_flag
    { initState "T" "logs" false with
      resources_from_downstream := [{ url := "sqlite:///b.sqlite", type_ := "database" }] }
    [{ url := "sqlite:///a.sqlite", type_ := "database" }]
    true (by decide) (by decide)

/-- C4: on the normal-completion path the full event trace shows
`_handle_worker_finished` running (and the thread being joined inside it)
strictly before `loop.quit` and before the wait unblocks with code `0`,
because both slots are connected to the same `finished` signal in the order of
`finishedConnections`; consequently the returned flag is the handler-set
`true` (never the default `false`), and the final state has worker, thread and
loop all cleaned up before the call returns. -/
theorem executeForward_handler_before_unblock (s : CombinerState)
    (resources : List Resource) (mergeOk : Bool)
    (h1 : urlsFromResources resources ≠ [])
    (h2 : urlsFromResources s.resources_from_downstream ≠ []) :
    executeForward s resources (RunOutcome.finishedNormally mergeOk) =
      ({ (destroyCurrentWorker s).1 with merge_succeeded := true },
        (destroyCurrentWorker s).2 ++
          [Ev.constructWorker
              { from_urls := urlsFromResources resources
                to_urls := urlsFromResources s.resources_from_downstream
                logs_dir := s.logs_dir
                cancel_on_error := s.cancel_on_error },
            Ev.startThread,
            Ev.ranHandleWorkerFinished, Ev.joinThread, Ev.ranLoopQuit,
            Ev.loopUnblocked 0,
            Ev.logSuccess ("Executing Combiner " ++ s.name ++ " finished")],
        true) := by
  rcases s with ⟨n, ld, c, rd, w, wt, lp, m⟩
  cases w <;> cases wt <;> cases lp <;>
    simp [executeForward, h1, h2, destroyCurrentWorker, deliverSlots,
      finishedConnections, runSlot, handleWorkerFinished]

/-- C4 witness at a concrete input. -/
theorem executeForward_handler_before_unblock_witness :
    executeForward
        { initState "T" "logs" false with
          resources_from_downstream := [{ url := "sqlite:///b.sqlite", type_ := "database" }] }
        [{ url := "sqlite:///a.sqlite", type_ := "database" }]
        (RunOutcome.finishedNormally true) =
      ({ (destroyCurrentWorker
            { initState "T" "logs" false with
              resources_from_downstream :=
                [{ url := "sqlite:///b.sqlite", type_ := "database" }] }).1 with
          merge_succeeded := true },
        (destroyCurrentWorker
            { initState "T" "logs" false with
              resources_from_downstream :=
                [{ url := "sqlite:///b.sqlite", type_ := "database" }] }).2 ++
          [Ev.constructWorker
              { from_urls := ["sqlite:///a.sqlite"]
                to_urls := ["sqlite:///b.sqlite"]
                logs_dir := "logs"
                cancel_on_error := false },
            Ev.startThread,
            Ev.ranHandleWorkerFinished, Ev.joinThread, Ev.ranLoopQuit,
            Ev.loopUnblocked 0,
            Ev.logSuccess "Executing Combiner T finished"],
        true) := by
  simpa using
    executeForward_handler_before_unblock
      { initState "T" "logs" false with
        resources_from_downstream := [{ url := "sqlite:///b.sqlite", type_ := "database" }] }
      [{ url := "sqlite:///a.sqlite", type_ := "database" }]
      true (by decide) (by decide)

/-- C6: whenever both filtered URL lists are non-empty, the event trace of one
`_execute_forward` call contains exactly one worker construction and exactly
one thread start, for either run outcome (no retry); and the teardown
performed before the construction, `_destroy_current_worker`, is idempotent on
the state. -/
theorem executeForward_one_worker_no_retry (s : CombinerState)
    (resources : List Resource) (o : RunOutcome) (t : CombinerState)
    (h1 : urlsFromResources resources ≠ [])
    (h2 : urlsFromResources s.resources_from_downstream ≠ []) :
    ((executeForward s resources o).2.1.filter Ev.isConstructWorker).length = 1 ∧
    ((executeForward s resources o).2.1.filter Ev.isStartThread).length = 1 ∧
    (destroyCurrentWorker (destroyCurrentWorker t).1).1 = (destroyCurrentWorker t).1 := by
  refine ⟨?_, ?_, ?_⟩
  · rcases s with ⟨n, ld, c, rd, w, wt, lp, m⟩
    cases o <;> cases w <;> cases wt <;> cases lp <;>
      simp [executeForward, h1, h2, destroyCurrentWorker, deliverSlots,
        finishedConnections, runSlot, handleWorkerFinished, stopExecution,
        Ev.isConstructWorker, Ev.isStartThread]
  · rcases s with ⟨n, ld, c, rd, w, wt, lp, m⟩
    cases o <;> cases w <;> cases wt <;> cases lp <;>
      simp [executeForward, h1, h2, destroyCurrentWorker, deliverSlots,
        finishedConnections, runSlot, handleWorkerFinished, stopExecution,
        Ev.isConstructWorker, Ev.isStartThread]
  · rcases t with ⟨n, ld, c, rd, w, wt, lp, m⟩
    cases w <;> cases wt <;> cases lp <;> simp [destroyCurrentWorker]

/-- C6 witness at a concrete input. -/
theorem executeForward_one_worker_no_retry_witness :
    ((executeForward busyState
        [{ url := "sqlite:///a.sqlite", type_ := "database" }]
        (RunOutcome.finishedNormally true)).2.1.filter Ev.isConstructWorker).length = 1 ∧
    ((executeForward busyState
        [{ url := "sqlite:///a.sqlite", type_ := "database" }]
        (RunOutcome.finishedNormally true)).2.1.filter Ev.isStartThread).length = 1 ∧
    (destroyCurrentWorker (destroyCurrentWorker busyState).1).1 =
      (destroyCurrentWorker busyState).1 := by
  exact executeForward_one_worker_no_retry busyState
    [{ url := "sqlite:///a.sqlite", type_ := "database" }]
    (RunOutcome.finishedNormally true) busyState (by decide) (by decide)

/-- C9: `_merge_succeeded` is monotone — it starts `false` at construction,
`_handle_worker_finished` sets it `true` unconditionally, and none of
`_execute_forward` (any resources, any outcome), `_execute_backward`,
`stop_execution` or `_destroy_current_worker` ever resets a `true` flag back
to `false`; a later forward-execution call can therefore start with a stale
`true` flag rather than a per-call default `false`. -/
theorem merge_succeeded_monotone (s s' : CombinerState) (resources : List Resource)
    (o : RunOutcome) (n l : String) (c : Bool)
    (h : s.merge_succeeded = true) :
    (executeForward s resources o).1.merge_succeeded = true ∧
    (executeBackward s resources).1.merge_succeeded = true ∧
    (stopExecution s).1.merge_succeeded = true ∧
    (destroyCurrentWorker s).1.merge_succeeded = true ∧
    (handleWorkerFinished s').1.merge_succeeded = true ∧
    (initState n l c).merge_succeeded = false := by
  refine ⟨?_, by simpa [executeBackward] using h, ?_, ?_, ?_, rfl⟩
  · rcases s with ⟨nm, ld, cc, rd, w, wt, lp, m⟩
    simp only at h
    subst h
    by_cases hf : urlsFromResources resources = [] <;>
      by_cases ht : urlsFromResources rd = [] <;>
      cases o <;> cases w <;> cases wt <;> cases lp <;>
      simp [executeForward, hf, ht, destroyCurrentWorker, deliverSlots,
        finishedConnections, runSlot, handleWorkerFinished, stopExecution]
  · rcases s with ⟨nm, ld, cc, rd, w, wt, lp, m⟩
    simp only at h
    subst h
    cases w <;> cases wt <;> cases lp <;> simp [stopExecution]
  · rcases s with ⟨nm, ld, cc, rd, w, wt, lp, m⟩
    simp only at h
    subst h
    cases w <;> cases wt <;> cases lp <;> simp [destroyCurrentWorker]
  · rcases s' with ⟨nm, ld, cc, rd, w, wt, lp, m⟩
    cases w <;> cases wt <;> cases lp <;>
      simp [handleWorkerFinished, destroyCurrentWorker]

/-- C9 witness at concrete inputs. -/
theorem merge_succeeded_monotone_witness :
    (executeForward { busyState with merge_succeeded := true } []
        RunOutcome.stoppedDuringWait).1.merge_succeeded = true ∧
    (executeBackward { busyState with merge_succeeded := true } []).1.merge_succeeded = true ∧
    (stopExecution { busyState with merge_succeeded := true }).1.merge_succeeded = true ∧
    (destroyCurrentWorker { busyState with merge_succeeded := true }).1.merge_succeeded = true ∧
    (handleWorkerFinished busyState).1.merge_succeeded = true ∧
    (initState "T" "logs" false).merge_succeeded = false := by
  exact merge_succeeded_monotone { busyState with merge_succeeded := true } busyState []
    RunOutcome.stoppedDuringWait "T" "logs" false rfl

/-- When the second component is relative and the first is nonempty without a
trailing separator, `osPathJoin` inserts exactly one separator. -/
theorem osPathJoin_sep (a b : String) (hb : b.data.head? ≠ some '/')
    (ha0 : a.data ≠ []) (ha1 : a.data.getLast? ≠ some '/') :
    osPathJoin a b = a ++ "/" ++ b := by
  simp [osPathJoin, hb, ha0, ha1]

/-- Appending `"/" ++ b` to any string keeps a nonempty, non-separator tail
whenever `b` has one. -/
theorem sep_append_goodTail (a b : String) (hb0 : b.data ≠ [])
    (hb1 : b.data.getLast? ≠ some '/') :
    (a ++ "/" ++ b).data ≠ [] ∧ (a ++ "/" ++ b).data.getLast? ≠ some '/' := by
  have hd : (a ++ "/" ++ b).data = (a ++ "/").data ++ b.data := String.data_append _ _
  constructor
  · rw [hd]
    intro hcontra
    exact hb0 (List.append_eq_nil.mp hcontra).2
  · rw [hd, List.getLast?_append]
    obtain ⟨ch, hch⟩ := Option.isSome_iff_exists.mp (List.getLast?_isSome.mpr hb0)
    rw [hch]
    intro hcontra
    apply hb1
    rw [hch]
    simpa [Option.or] using hcontra

/-- C8: for a well-formed project directory (nonempty, no trailing separator)
and a well-formed `shorten(name)` component (nonempty, neither leading nor
trailing separator), `from_dict` with a dictionary carrying
`cancel_on_error = b` constructs the item with logs directory
`<project_dir>/.spinetoolbox/items/<shorten(name)>/logs` and
`cancel_on_error` flag `b`. -/
theorem fromDict_builds_logs_dir (shorten : String → String)
    (item_dict : List (String × Bool)) (name project_dir : String) (b : Bool)
    (hk : item_dict.lookup "cancel_on_error" = some b)
    (hp0 : project_dir.data ≠ []) (hp1 : project_dir.data.getLast? ≠ some '/')
    (hs0 : (shorten name).data ≠ []) (hs1 : (shorten name).data.head? ≠ some '/')
    (hs2 : (shorten name).data.getLast? ≠ some '/') :
    fromDict shorten item_dict name project_dir =
      Except.ok (initState name
        (project_dir ++ "/.spinetoolbox/items/" ++ shorten name ++ "/logs") b) := by
  have e1 : osPathJoin project_dir ".spinetoolbox" =
      project_dir ++ "/" ++ ".spinetoolbox" :=
    osPathJoin_sep _ _ (by decide) hp0 hp1
  have g1 := sep_append_goodTail project_dir ".spinetoolbox" (by decide) (by decide)
  have e2 : osPathJoin (project_dir ++ "/" ++ ".spinetoolbox") "items" =
      project_dir ++ "/" ++ ".spinetoolbox" ++ "/" ++ "items" :=
    osPathJoin_sep _ _ (by decide) g1.1 g1.2
  have g2 := sep_append_goodTail (project_dir ++ "/" ++ ".spinetoolbox") "items"
    (by decide) (by decide)
  have e3 : osPathJoin (project_dir ++ "/" ++ ".spinetoolbox" ++ "/" ++ "items")
      (shorten name) =
      project_dir ++ "/" ++ ".spinetoolbox" ++ "/" ++ "items" ++ "/" ++ shorten name :=
    osPathJoin_sep _ _ hs1 g2.1 g2.2
  have g3 := sep_append_goodTail
    (project_dir ++ "/" ++ ".spinetoolbox" ++ "/" ++ "items") (shorten name) hs0 hs2
  have e4 : osPathJoin
      (project_dir ++ "/" ++ ".spinetoolbox" ++ "/" ++ "items" ++ "/" ++ shorten name)
      "logs" =
      project_dir ++ "/" ++ ".spinetoolbox" ++ "/" ++ "items" ++ "/" ++ shorten name ++
        "/" ++ "logs" :=
    osPathJoin_sep _ _ (by decide) g3.1 g3.2
  have lit1 : ("/" ++ ".spinetoolbox" ++ "/" ++ "items" ++ "/" : String) =
      "/.spinetoolbox/items/" := rfl
  have lit2 : ("/" ++ "logs" : String) = "/logs" := rfl
  have chunk : project_dir ++ "/" ++ ".spinetoolbox" ++ "/" ++ "items" ++ "/" ++
      shorten name ++ "/" ++ "logs" =
      project_dir ++ "/.spinetoolbox/items/" ++ shorten name ++ "/logs" := by
    rw [← lit1, ← lit2]
    simp [String.append_assoc]
  simp only [fromDict, e1, e2, e3, e4, hk, chunk]

/-- C8 witness at a concrete input. -/
theorem fromDict_builds_logs_dir_witness :
    fromDict (fun n => n) [("cancel_on_error", true)] "my item" "/home/user/proj" =
      Except.ok (initState "my item"
        ("/home/user/proj" ++ "/.spinetoolbox/items/" ++ "my item" ++ "/logs") true) := by
  exact fromDict_builds_logs_dir (fun n => n) [("cancel_on_error", true)] "my item"
    "/home/user/proj" true (by decide) (by decide) (by decide) (by decide) (by decide)
    (by decide)

/-- C10: `from_dict` fails with a `KeyError` whenever the item dictionary has
no `"cancel_on_error"` key, and it succeeds exactly when the key is
present. -/
theorem fromDict_keyError_when_missing (shorten : String → String)
    (d1 d2 : List (String × Bool)) (name project_dir : String)
    (h : d1.lookup "cancel_on_error" = none) :
    fromDict shorten d1 name project_dir = Except.error "KeyError: cancel_on_error" ∧
    (fromDict shorten d2 name project_dir).toOption.isSome =
      (d2.lookup "cancel_on_error").isSome := by
  constructor
  · simp [fromDict, h]
  · cases hl : d2.lookup "cancel_on_error" <;> simp [fromDict, hl, Except.toOption]

/-- C10 witness at a concrete input. -/
theorem fromDict_keyError_when_missing_witness :
    fromDict (fun n => n) [("on_error", true)] "T" "/proj" =
      Except.error "KeyError: cancel_on_error" ∧
    (fromDict (fun n => n) [("cancel_on_error", false)] "T" "/proj").toOption.isSome =
      (([("cancel_on_error", false)] : List (String × Bool)).lookup
        "cancel_on_error").isSome := by
  exact fromDict_keyError_when_missing (fun n => n) [("on_error", true)]
    [("cancel_on_error", false)] "T" "/proj" (by decide)

end Combiner
